import Mathlib

/-!
Verification of the Telegram profile-photo bot (src/main.py) against its
specification.  The handler `username_handler`, the per-photo transfer loop,
the temporary-file cleanup `finally` block, and the HTTP liveness endpoint
`health_check` are shallowly embedded as pure functions from an environment
(an oracle giving the outcome of every chat-platform client call) to a trace
of observable effects.
-/

namespace DeepBot

/-- Exceptions that the chat-platform client calls can raise, mirroring the
exception classes handled by the `except` arms of `username_handler`
(src/main.py lines 154-166).  `other` is any unclassified exception, carrying
its Python type name (`type(e).__name__`). -/
inductive TgError where
  | usernameNotOccupied
  | usernameInvalid
  | valueError
  | userNotParticipant
  | connectionError
  | other (typeName : String)
  deriving Repr, DecidableEq

/-- The user-facing replies that `username_handler` can send, one constructor
per `event.respond` call site in src/main.py.  `Reply.render` gives the exact
message text. -/
inductive Reply where
  | validation
  | noPhotos (u : String)
  | sentCount (n : Nat) (u : String)
  | noneSent (u : String)
  | resolutionFail (u : String)
  | noAccess (u : String)
  | netErr
  | unexpected (typeName : String)
  deriving Repr, DecidableEq

/-- The exact reply strings of src/main.py (lines 107, 120, 148, 150, 156,
159, 162, 166). -/
def Reply.render : Reply → String
  | .validation => "Please provide a valid username."
  | .noPhotos u => "No public profile photos found for @" ++ u ++ "."
  | .sentCount n u => "Sent " ++ toString n ++ " profile photo(s) of @" ++ u ++ "."
  | .noneSent u => "Found photos for @" ++ u ++ ", but couldn't download or send them."
  | .resolutionFail u => "Sorry, couldn't find or access user @" ++ u ++
      ". The username might be incorrect or the entity type is not supported."
  | .noAccess u => "I might not have the necessary permissions or the user @" ++ u ++
      " is not accessible."
  | .netErr => "Sorry, a network error occurred. Please try again later."
  | .unexpected t => "Sorry, an unexpected error occurred. Type: " ++ t

/-- Caption attached to each forwarded photo
(src/main.py line 141: caption is DP i+1 for @username). -/
def captionText (i : Nat) (u : String) : String :=
  "DP " ++ toString i ++ " for @" ++ u

/-- Observable effects of one run of `username_handler`: outbound replies,
remote client calls, temporary-file operations and log lines, in program
order.  Temp-file paths and photo/chat identities are modelled as naturals. -/
inductive Effect where
  | respond (r : Reply)
  | getEntity (handle : String)
  | listPhotos (limit : Nat)
  | createTemp (path : Nat)
  | download (photo : Nat) (path : Nat)
  | sendFile (chat : Nat) (path : Nat) (caption : String)
  | logWarnDownload (photo : Nat)
  | logException (e : TgError)
  | removeFile (path : Nat)
  | logRemoveError (path : Nat)
  deriving Repr, DecidableEq

/-- The environment: outcome of every external call the handler can make.
`getEntity` resolves a handle (src/main.py line 115), `profilePhotos` is the
full list of profile photos of the resolved account (the `limit=10` of line
117 is applied by the caller as a `take`), `downloadMedia` downloads one
photo to a path and returns the confirmed path or `none` (line 134), and
`sendFile` uploads a file (line 138).  Any of them may raise.  `removeOk p`
says whether `os.remove` on path `p` succeeds in the `finally` block. -/
structure Env where
  getEntity : String → Except TgError Nat
  profilePhotos : Nat → Except TgError (List Nat)
  downloadMedia : Nat → Nat → Except TgError (Option Nat)
  sendFile : Nat → Nat → Except TgError Unit
  removeOk : Nat → Bool

/-- An inbound message: `out` is `event.out`, `text` is `event.text` (used
for the command check of line 98), `rawText` is `event.raw_text` (used for
normalization, line 101), and `chatId` is `event.chat_id`. -/
structure Message where
  out : Bool
  text : String
  rawText : String
  chatId : Nat
  deriving Repr, DecidableEq

/-- Python `s.strip()`: drop leading and trailing whitespace, modelled over
the character list (restricted to ASCII whitespace). -/
def pyStrip (s : String) : String :=
  ⟨((s.data.dropWhile Char.isWhitespace).reverse.dropWhile Char.isWhitespace).reverse⟩

/-- Python `s.replace("@", "")` (src/main.py line 105): with a one-character
pattern this removes every occurrence of that character, i.e. it filters
every at-sign out of the string, wherever it occurs. -/
def replaceAtSign (s : String) : String :=
  ⟨s.data.filter (fun c => !(c == '@'))⟩

/-- Python `event.text.startswith('/')` (src/main.py line 98): the first
character is a slash. -/
def startsWithSlash (s : String) : Bool :=
  s.data.head? == some '/'

/-- The normalization of src/main.py line 105 applied to the already stripped
text: `text.replace("@", "").strip()`. -/
def normalizeHandle (text : String) : String :=
  pyStrip (replaceAtSign text)

/-- The normalization in the words of the specification (section 4.2 step 1
and the claim): trim whitespace, then remove exactly one leading at-sign if
present.  Declared only to be compared with `normalizeHandle`, which is the
code's normalization. -/
def specNormalizeHandle (raw : String) : String :=
  if (pyStrip raw).data.head? == some '@' then ⟨(pyStrip raw).data.tail⟩
  else pyStrip raw

/-- Result of the per-photo `for` loop (src/main.py lines 124-145): the trace
of effects the loop produced, the list of temp-file paths appended to
`temp_files_to_clean` in order, the final `sent_count`, and the exception
that escaped the loop, if any. -/
structure LoopResult where
  trace : List Effect
  temps : List Nat
  sent : Nat
  err : Option TgError
  deriving Repr, DecidableEq

/-- The `for i, photo in enumerate(photos)` loop of src/main.py lines
124-145.  Each iteration allocates a fresh uniquely named temp file (the path
is the iteration index `i`), appends it to the cleanup list before the
download attempt (line 131), downloads, and on a confirmed path sends the
file and increments `sent_count`; a download returning `None` is only logged
and the loop continues; an exception from the download or send call escapes
the loop immediately. -/
def photoLoop (env : Env) (chatId : Nat) (username : String) :
    List Nat → Nat → Nat → LoopResult
  | [], _, sent => ⟨[], [], sent, none⟩
  | photo :: rest, i, sent =>
    match env.downloadMedia photo i with
    | .error e =>
      ⟨[Effect.createTemp i, Effect.download photo i], [i], sent, some e⟩
    | .ok none =>
      let r := photoLoop env chatId username rest (i + 1) sent
      ⟨Effect.createTemp i :: Effect.download photo i ::
          Effect.logWarnDownload photo :: r.trace,
        i :: r.temps, r.sent, r.err⟩
    | .ok (some actual) =>
      match env.sendFile chatId actual with
      | .error e =>
        ⟨[Effect.createTemp i, Effect.download photo i,
            Effect.sendFile chatId actual (captionText (i + 1) username)],
          [i], sent, some e⟩
      | .ok _ =>
        let r := photoLoop env chatId username rest (i + 1) (sent + 1)
        ⟨Effect.createTemp i :: Effect.download photo i ::
            Effect.sendFile chatId actual (captionText (i + 1) username) :: r.trace,
          i :: r.temps, r.sent, r.err⟩

/-- The summary reply after the loop (src/main.py lines 147-150): if the loop
was escaped by an exception there is no summary; otherwise reply with the
count if positive, else that none could be downloaded or sent (the photo
list is known non-empty at this point). -/
def summarize (username : String) (r : LoopResult) : List Effect :=
  match r.err with
  | some _ => r.trace
  | none => r.trace ++
      [Effect.respond (if 0 < r.sent then Reply.sentCount r.sent username
        else Reply.noneSent username)]

/-- Result of the `try` body (src/main.py lines 114-151): trace, temp files
registered for cleanup, and the exception escaping the body, if any. -/
structure BodyResult where
  trace : List Effect
  temps : List Nat
  err : Option TgError
  deriving Repr, DecidableEq

/-- The `try` body of src/main.py lines 114-151: resolve the entity, list up
to 10 profile photos, reply and stop if there are none, otherwise run the
per-photo loop and append the summary reply. -/
def tryBody (env : Env) (chatId : Nat) (username : String) : BodyResult :=
  match env.getEntity username with
  | .error e => ⟨[Effect.getEntity username], [], some e⟩
  | .ok entity =>
    match env.profilePhotos entity with
    | .error e => ⟨[Effect.getEntity username, Effect.listPhotos 10], [], some e⟩
    | .ok allPhotos =>
      if (allPhotos.take 10).isEmpty then
        ⟨[Effect.getEntity username, Effect.listPhotos 10,
            Effect.respond (Reply.noPhotos username)], [], none⟩
      else
        ⟨Effect.getEntity username :: Effect.listPhotos 10 ::
            summarize username (photoLoop env chatId username (allPhotos.take 10) 0 0),
          (photoLoop env chatId username (allPhotos.take 10) 0 0).temps,
          (photoLoop env chatId username (allPhotos.take 10) 0 0).err⟩

/-- The `finally` block of src/main.py lines 167-175: attempt `os.remove` on
every registered temp file in registration order; a failing removal is
logged (`OSError` caught, line 174) and the iteration continues. -/
def cleanup (env : Env) : List Nat → List Effect
  | [] => []
  | p :: rest =>
    if env.removeOk p then Effect.removeFile p :: cleanup env rest
    else Effect.removeFile p :: Effect.logRemoveError p :: cleanup env rest

/-- The `except` arms (src/main.py lines 153-166) followed by the `finally`
block: a classified or unclassified exception escaping the `try` body is
logged and turned into one user-facing reply; then the temp files are
cleaned.  Which reply each exception class gets is `exceptReply`. -/
def exceptReply : TgError → String → Reply
  | .usernameNotOccupied, u => Reply.resolutionFail u
  | .usernameInvalid, u => Reply.resolutionFail u
  | .valueError, u => Reply.resolutionFail u
  | .userNotParticipant, u => Reply.noAccess u
  | .connectionError, _ => Reply.netErr
  | .other t, _ => Reply.unexpected t

/-- Packaging of the `try` body with its `except` arms and the `finally`
cleanup (src/main.py lines 114-175). -/
def afterTry (env : Env) (username : String) (r : BodyResult) : List Effect :=
  match r.err with
  | none => r.trace ++ cleanup env r.temps
  | some e => r.trace ++ Effect.logException e ::
      Effect.respond (exceptReply e username) :: cleanup env r.temps

/-- The general message handler `username_handler` of src/main.py lines
94-175, as a function from the environment and the inbound message to its
effect trace.  Totality of this function models the propagation policy: no
exception escapes the handler. -/
def username_handler (env : Env) (msg : Message) : List Effect :=
  if msg.out || startsWithSlash msg.text then []
  else if pyStrip msg.rawText = "" then []
  else if normalizeHandle (pyStrip msg.rawText) = "" then
    [Effect.respond Reply.validation]
  else
    afterTry env (normalizeHandle (pyStrip msg.rawText))
      (tryBody env msg.chatId (normalizeHandle (pyStrip msg.rawText)))

/-- The HTTP response of the liveness endpoint. -/
structure HealthResponse where
  status : String
  telethonConnected : Bool
  statusCode : Nat
  deriving Repr, DecidableEq

/-- The `health_check` route handler of src/main.py lines 68-79, as a
function of whether `client.is_connected()` currently holds. -/
def health_check (connected : Bool) : HealthResponse :=
  { status :=
      if connected then
        "Bot is running." ++ " Telethon client is connected to Telegram."
      else
        "Bot is running." ++ " Telethon client is NOT connected to Telegram.",
    telethonConnected := connected,
    statusCode := 200 }

/-- The temp-file paths created during a trace, in creation order
(the `Effect.createTemp` entries). -/
def createdFiles : List Effect → List Nat
  | [] => []
  | Effect.createTemp p :: rest => p :: createdFiles rest
  | _ :: rest => createdFiles rest

/-- Number of download attempts in a trace. -/
def downloadCount (tr : List Effect) : Nat :=
  tr.countP fun e => match e with | Effect.download _ _ => true | _ => false

/-- Whether an effect is an outbound reply. -/
def isRespond : Effect → Bool
  | Effect.respond _ => true
  | _ => false

/-- The temp files still on disk after the trace: created, and not
successfully removed (a removal attempt exists and `os.remove` succeeded). -/
def filesRemaining (env : Env) (tr : List Effect) : List Nat :=
  (createdFiles tr).filter fun p =>
    !(decide (Effect.removeFile p ∈ tr) && env.removeOk p)

/-! Concrete environments and messages used by witnesses and
counterexamples. -/

/-- An environment in which entity resolution raises `UsernameNotOccupiedError`. -/
def envNotFound : Env :=
  ⟨fun _ => .error .usernameNotOccupied, fun _ => .ok [],
   fun _ _ => .ok none, fun _ _ => .ok (), fun _ => true⟩

/-- An environment in which the account exists but has no profile photos. -/
def envNoPhotos : Env :=
  ⟨fun _ => .ok 1, fun _ => .ok [], fun _ _ => .ok none,
   fun _ _ => .ok (), fun _ => true⟩

/-- An environment with two photos in which every download raises
`ConnectionError`. -/
def envAbort : Env :=
  ⟨fun _ => .ok 1, fun _ => .ok [7, 8],
   fun _ _ => .error .connectionError, fun _ _ => .ok (), fun _ => true⟩

/-- An environment with one photo in which every call succeeds. -/
def envAllGood : Env :=
  ⟨fun _ => .ok 1, fun _ => .ok [7], fun _ q => .ok (some q),
   fun _ _ => .ok (), fun _ => true⟩

/-- An environment with two photos in which every download returns `None`
without raising. -/
def envAllNone : Env :=
  ⟨fun _ => .ok 1, fun _ => .ok [7, 8], fun _ _ => .ok none,
   fun _ _ => .ok (), fun _ => true⟩

/-- An environment in which entity resolution raises an unclassified
exception of type `RuntimeError`. -/
def envBoom : Env :=
  ⟨fun _ => .error (.other "RuntimeError"), fun _ => .ok [],
   fun _ _ => .ok none, fun _ _ => .ok (), fun _ => true⟩

/-- A plain username message. -/
def msgAlice : Message := ⟨false, "alice", "alice", 3⟩

/-- A whitespace-only message. -/
def msgWs : Message := ⟨false, " ", " ", 3⟩

/-- A message consisting of a single at-sign. -/
def msgAt : Message := ⟨false, "@", "@", 3⟩

/-- A message with an at-sign in the middle of the handle. -/
def msgAab : Message := ⟨false, "a@b", "a@b", 3⟩

/-! Helper lemmas about the per-photo loop. -/

/-- The temp files created by the loop are exactly the ones it registers for
cleanup, in order (src/main.py line 131: the path is appended to
`temp_files_to_clean` right after creation, before the download attempt). -/
theorem photoLoop_createdFiles (env : Env) (chat : Nat) (u : String)
    (photos : List Nat) :
    ∀ i sent, createdFiles (photoLoop env chat u photos i sent).trace =
      (photoLoop env chat u photos i sent).temps := by
  induction photos with
  | nil => intro i sent; simp [photoLoop, createdFiles]
  | cons photo rest ih =>
    intro i sent
    cases hd : env.downloadMedia photo i with
    | error e => simp [photoLoop, hd, createdFiles]
    | ok o =>
      cases o with
      | none => simp [photoLoop, hd, createdFiles, ih]
      | some a =>
        cases hs : env.sendFile chat a with
        | error e => simp [photoLoop, hd, hs, createdFiles]
        | ok v => simp [photoLoop, hd, hs, createdFiles, ih]

/-- The loop sends no replies: all `event.respond` calls are outside the
`for` loop. -/
theorem photoLoop_filter_respond (env : Env) (chat : Nat) (u : String)
    (photos : List Nat) :
    ∀ i sent, (photoLoop env chat u photos i sent).trace.filter isRespond = [] := by
  induction photos with
  | nil => intro i sent; simp [photoLoop]
  | cons photo rest ih =>
    intro i sent
    cases hd : env.downloadMedia photo i with
    | error e => simp [photoLoop, hd, isRespond]
    | ok o =>
      cases o with
      | none => simp [photoLoop, hd, isRespond, ih]
      | some a =>
        cases hs : env.sendFile chat a with
        | error e => simp [photoLoop, hd, hs, isRespond]
        | ok v => simp [photoLoop, hd, hs, isRespond, ih]

/-- The loop registers at most one temp file per photo. -/
theorem photoLoop_temps_length_le (env : Env) (chat : Nat) (u : String)
    (photos : List Nat) :
    ∀ i sent, (photoLoop env chat u photos i sent).temps.length ≤ photos.length := by
  induction photos with
  | nil => intro i sent; simp [photoLoop]
  | cons photo rest ih =>
    intro i sent
    cases hd : env.downloadMedia photo i with
    | error e => simp [photoLoop, hd]
    | ok o =>
      cases o with
      | none =>
        have := ih (i + 1) sent
        simp [photoLoop, hd]
        omega
      | some a =>
        cases hs : env.sendFile chat a with
        | error e => simp [photoLoop, hd, hs]
        | ok v =>
          have := ih (i + 1) (sent + 1)
          simp [photoLoop, hd, hs]
          omega

/-- The loop makes exactly one download attempt per registered temp file
(the creation count equals the download-attempt count). -/
theorem photoLoop_downloadCount (env : Env) (chat : Nat) (u : String)
    (photos : List Nat) :
    ∀ i sent, downloadCount (photoLoop env chat u photos i sent).trace =
      (photoLoop env chat u photos i sent).temps.length := by
  induction photos with
  | nil => intro i sent; simp [photoLoop, downloadCount]
  | cons photo rest ih =>
    intro i sent
    cases hd : env.downloadMedia photo i with
    | error e => simp [photoLoop, hd, downloadCount]
    | ok o =>
      cases o with
      | none =>
        simp only [photoLoop, hd]
        simp [downloadCount, List.countP_cons]
        simpa [downloadCount] using ih (i + 1) sent
      | some a =>
        cases hs : env.sendFile chat a with
        | error e => simp [photoLoop, hd, hs, downloadCount]
        | ok v =>
          simp only [photoLoop, hd, hs]
          simp [downloadCount, List.countP_cons]
          simpa [downloadCount] using ih (i + 1) (sent + 1)

/-- The loop performs no entity resolution. -/
theorem photoLoop_no_getEntity (env : Env) (chat : Nat) (u : String)
    (photos : List Nat) (h : String) :
    ∀ i sent, Effect.getEntity h ∉ (photoLoop env chat u photos i sent).trace := by
  induction photos with
  | nil => intro i sent; simp [photoLoop]
  | cons photo rest ih =>
    intro i sent
    cases hd : env.downloadMedia photo i with
    | error e => simp [photoLoop, hd]
    | ok o =>
      cases o with
      | none => simp [photoLoop, hd, ih]
      | some a =>
        cases hs : env.sendFile chat a with
        | error e => simp [photoLoop, hd, hs]
        | ok v => simp [photoLoop, hd, hs, ih]

/-- The loop performs no photo-listing call. -/
theorem photoLoop_no_listPhotos (env : Env) (chat : Nat) (u : String)
    (photos : List Nat) (l : Nat) :
    ∀ i sent, Effect.listPhotos l ∉ (photoLoop env chat u photos i sent).trace := by
  induction photos with
  | nil => intro i sent; simp [photoLoop]
  | cons photo rest ih =>
    intro i sent
    cases hd : env.downloadMedia photo i with
    | error e => simp [photoLoop, hd]
    | ok o =>
      cases o with
      | none => simp [photoLoop, hd, ih]
      | some a =>
        cases hs : env.sendFile chat a with
        | error e => simp [photoLoop, hd, hs]
        | ok v => simp [photoLoop, hd, hs, ih]

/-! Helper lemmas about the `finally` cleanup block. -/

/-- The cleanup block attempts a removal for exactly the registered files. -/
theorem cleanup_mem_removeFile (env : Env) (temps : List Nat) (p : Nat) :
    Effect.removeFile p ∈ cleanup env temps ↔ p ∈ temps := by
  induction temps with
  | nil => simp [cleanup]
  | cons q rest ih =>
    by_cases hq : env.removeOk q
    · simp [cleanup, hq, ih]
    · simp [cleanup, hq, ih]

/-- The cleanup block creates no temp files. -/
theorem cleanup_createdFiles (env : Env) (temps : List Nat) :
    createdFiles (cleanup env temps) = [] := by
  induction temps with
  | nil => simp [cleanup, createdFiles]
  | cons q rest ih =>
    by_cases hq : env.removeOk q
    · simp [cleanup, hq, createdFiles, ih]
    · simp [cleanup, hq, createdFiles, ih]

/-- The cleanup block sends no replies; in particular a failing `os.remove`
is only logged, never surfaced to the user. -/
theorem cleanup_filter_respond (env : Env) (temps : List Nat) :
    (cleanup env temps).filter isRespond = [] := by
  induction temps with
  | nil => simp [cleanup]
  | cons q rest ih =>
    by_cases hq : env.removeOk q
    · simp [cleanup, hq, isRespond, ih]
    · simp [cleanup, hq, isRespond, ih]

/-- The cleanup block performs no entity resolution. -/
theorem cleanup_no_getEntity (env : Env) (temps : List Nat) (h : String) :
    Effect.getEntity h ∉ cleanup env temps := by
  induction temps with
  | nil => simp [cleanup]
  | cons q rest ih =>
    by_cases hq : env.removeOk q
    · simp [cleanup, hq, ih]
    · simp [cleanup, hq, ih]

/-- The cleanup block performs no photo-listing call. -/
theorem cleanup_no_listPhotos (env : Env) (temps : List Nat) (l : Nat) :
    Effect.listPhotos l ∉ cleanup env temps := by
  induction temps with
  | nil => simp [cleanup]
  | cons q rest ih =>
    by_cases hq : env.removeOk q
    · simp [cleanup, hq, ih]
    · simp [cleanup, hq, ih]

/-- The cleanup block makes no download attempts. -/
theorem cleanup_downloadCount (env : Env) (temps : List Nat) :
    downloadCount (cleanup env temps) = 0 := by
  induction temps with
  | nil => simp [cleanup, downloadCount]
  | cons q rest ih =>
    by_cases hq : env.removeOk q
    · simpa [cleanup, hq, downloadCount, List.countP_cons] using ih
    · simpa [cleanup, hq, downloadCount, List.countP_cons] using ih

/-! Helper lemmas about the trace bookkeeping functions. -/

/-- Membership in the created-files list is exactly a `createTemp` effect in
the trace. -/
theorem mem_createdFiles (tr : List Effect) (p : Nat) :
    p ∈ createdFiles tr ↔ Effect.createTemp p ∈ tr := by
  induction tr with
  | nil => simp [createdFiles]
  | cons e rest ih => cases e <;> simp [createdFiles, ih]

/-- The created-files list distributes over trace concatenation. -/
theorem createdFiles_append (a b : List Effect) :
    createdFiles (a ++ b) = createdFiles a ++ createdFiles b := by
  induction a with
  | nil => simp [createdFiles]
  | cons e rest ih => cases e <;> simp [createdFiles, ih]

/-! Helper lemmas about the `try` body. -/

/-- The temp files created during the `try` body are exactly the ones it
registers for cleanup. -/
theorem tryBody_createdFiles (env : Env) (chat : Nat) (u : String) :
    createdFiles (tryBody env chat u).trace = (tryBody env chat u).temps := by
  cases hg : env.getEntity u with
  | error e => simp [tryBody, hg, createdFiles]
  | ok ent =>
    cases hp : env.profilePhotos ent with
    | error e => simp [tryBody, hg, hp, createdFiles]
    | ok allPhotos =>
      by_cases hne : (allPhotos.take 10).isEmpty
      · simp [tryBody, hg, hp, hne, createdFiles]
      · simp only [tryBody, hg, hp, hne]
        simp only [createdFiles, summarize]
        cases herr : (photoLoop env chat u (allPhotos.take 10) 0 0).err with
        | none =>
          simp [createdFiles_append, createdFiles,
            photoLoop_createdFiles env chat u (allPhotos.take 10) 0 0]
        | some e =>
          simp [photoLoop_createdFiles env chat u (allPhotos.take 10) 0 0]

/-- Membership in the summary segment: an effect there is either from the
loop trace or is a reply. -/
theorem mem_summarize (u : String) (r : LoopResult) (e : Effect)
    (h : e ∈ summarize u r) : e ∈ r.trace ∨ ∃ rep, e = Effect.respond rep := by
  rcases r with ⟨tr, temps, sent, err⟩
  cases err with
  | none =>
    simp only [summarize, List.mem_append, List.mem_singleton] at h
    rcases h with h | h
    · exact Or.inl h
    · exact Or.inr ⟨_, h⟩
  | some e2 =>
    simp only [summarize] at h
    exact Or.inl h

/-- A reply found in the summary segment is the summary reply itself,
provided the loop trace holds no replies. -/
theorem summarize_respond (u : String) (r : LoopResult) (rep : Reply)
    (hno : r.trace.filter isRespond = [])
    (h : Effect.respond rep ∈ summarize u r) :
    r.err = none ∧
      rep = (if 0 < r.sent then Reply.sentCount r.sent u else Reply.noneSent u) := by
  rcases r with ⟨tr, temps, sent, err⟩
  have hnotr : ∀ rep2, Effect.respond rep2 ∉ tr := by
    intro rep2 hmem
    have := List.filter_eq_nil_iff.mp hno _ hmem
    simp [isRespond] at this
  cases err with
  | none =>
    simp only [summarize, List.mem_append, List.mem_singleton] at h
    rcases h with h | h
    · exact absurd h (hnotr rep)
    · simp only [Effect.respond.injEq] at h
      exact ⟨rfl, h⟩
  | some e2 =>
    simp only [summarize] at h
    exact absurd h (hnotr rep)

/-- Every entity-resolution call in the `try` body resolves the normalized
handle it was given. -/
theorem tryBody_getEntity_handle (env : Env) (chat : Nat) (u h : String)
    (hmem : Effect.getEntity h ∈ (tryBody env chat u).trace) : h = u := by
  cases hg : env.getEntity u with
  | error e => simp [tryBody, hg] at hmem; exact hmem
  | ok ent =>
    cases hp : env.profilePhotos ent with
    | error e => simp [tryBody, hg, hp] at hmem; exact hmem
    | ok allPhotos =>
      cases hne : (allPhotos.take 10).isEmpty with
      | true => simp [tryBody, hg, hp, hne] at hmem; exact hmem
      | false =>
        simp only [tryBody, hg, hp, hne, Bool.false_eq_true, if_false,
          List.mem_cons] at hmem
        rcases hmem with h1 | h1 | h1
        · exact (Effect.getEntity.injEq _ _).mp h1
        · exact absurd h1 (by simp)
        · rcases mem_summarize _ _ _ h1 with h2 | ⟨rep, h2⟩
          · exact absurd h2
              (photoLoop_no_getEntity env chat u (allPhotos.take 10) h 0 0)
          · exact absurd h2 (by simp)

/-- Every photo-listing call in the `try` body requests the fixed limit of
10 photos (src/main.py line 117). -/
theorem tryBody_listPhotos_limit (env : Env) (chat : Nat) (u : String) (l : Nat)
    (hmem : Effect.listPhotos l ∈ (tryBody env chat u).trace) : l = 10 := by
  cases hg : env.getEntity u with
  | error e => simp [tryBody, hg] at hmem
  | ok ent =>
    cases hp : env.profilePhotos ent with
    | error e => simp [tryBody, hg, hp] at hmem; exact hmem
    | ok allPhotos =>
      cases hne : (allPhotos.take 10).isEmpty with
      | true => simp [tryBody, hg, hp, hne] at hmem; exact hmem
      | false =>
        simp only [tryBody, hg, hp, hne, Bool.false_eq_true, if_false,
          List.mem_cons] at hmem
        rcases hmem with h1 | h1 | h1
        · exact absurd h1 (by simp)
        · exact (Effect.listPhotos.injEq _ _).mp h1
        · rcases mem_summarize _ _ _ h1 with h2 | ⟨rep, h2⟩
          · exact absurd h2
              (photoLoop_no_listPhotos env chat u (allPhotos.take 10) l 0 0)
          · exact absurd h2 (by simp)

/-- The `try` body registers at most 10 temp files. -/
theorem tryBody_temps_length_le (env : Env) (chat : Nat) (u : String) :
    (tryBody env chat u).temps.length ≤ 10 := by
  cases hg : env.getEntity u with
  | error e => simp [tryBody, hg]
  | ok ent =>
    cases hp : env.profilePhotos ent with
    | error e => simp [tryBody, hg, hp]
    | ok allPhotos =>
      cases hne : (allPhotos.take 10).isEmpty with
      | true => simp [tryBody, hg, hp, hne]
      | false =>
        simp only [tryBody, hg, hp, hne, Bool.false_eq_true, if_false]
        have h1 := photoLoop_temps_length_le env chat u (allPhotos.take 10) 0 0
        have h2 : (allPhotos.take 10).length ≤ 10 := by
          rw [List.length_take]
          exact Nat.min_le_left _ _
        omega

/-- The `try` body makes one download attempt per registered temp file. -/
theorem tryBody_downloadCount (env : Env) (chat : Nat) (u : String) :
    downloadCount (tryBody env chat u).trace = (tryBody env chat u).temps.length := by
  cases hg : env.getEntity u with
  | error e => simp [tryBody, hg, downloadCount]
  | ok ent =>
    cases hp : env.profilePhotos ent with
    | error e => simp [tryBody, hg, hp, downloadCount]
    | ok allPhotos =>
      cases hne : (allPhotos.take 10).isEmpty with
      | true => simp [tryBody, hg, hp, hne, downloadCount]
      | false =>
        simp only [tryBody, hg, hp, hne, Bool.false_eq_true, if_false]
        have hc := photoLoop_downloadCount env chat u (allPhotos.take 10) 0 0
        rcases hr : photoLoop env chat u (allPhotos.take 10) 0 0 with
          ⟨tr, temps, sent, err⟩
        rw [hr] at hc
        cases err with
        | none =>
          simp only [summarize]
          simp only [downloadCount, List.countP_cons, List.countP_append] at hc ⊢
          simp [hc]
        | some e =>
          simp only [summarize]
          simp only [downloadCount, List.countP_cons] at hc ⊢
          simp [hc]

/-- The `try` body never sends the validation reply: that reply is sent only
before the `try` block is entered (src/main.py line 107). -/
theorem tryBody_no_validation (env : Env) (chat : Nat) (u : String) :
    Effect.respond Reply.validation ∉ (tryBody env chat u).trace := by
  intro hmem
  cases hg : env.getEntity u with
  | error e => simp [tryBody, hg] at hmem
  | ok ent =>
    cases hp : env.profilePhotos ent with
    | error e => simp [tryBody, hg, hp] at hmem
    | ok allPhotos =>
      cases hne : (allPhotos.take 10).isEmpty with
      | true => simp [tryBody, hg, hp, hne] at hmem
      | false =>
        simp only [tryBody, hg, hp, hne, Bool.false_eq_true, if_false,
          List.mem_cons] at hmem
        rcases hmem with h1 | h1 | h1
        · exact absurd h1 (by simp)
        · exact absurd h1 (by simp)
        · have hfil := photoLoop_filter_respond env chat u (allPhotos.take 10) 0 0
          have := summarize_respond u _ Reply.validation hfil h1
          rcases this with ⟨-, h2⟩
          by_cases hs : 0 < (photoLoop env chat u (allPhotos.take 10) 0 0).sent
          · simp [hs] at h2
          · simp [hs] at h2

/-- No `except` arm replies with the validation prompt. -/
theorem exceptReply_ne_validation (e : TgError) (u : String) :
    exceptReply e u ≠ Reply.validation := by
  cases e <;> simp [exceptReply]

/-- The cleanup block never replies to the user. -/
theorem cleanup_no_respond (env : Env) (temps : List Nat) (rep : Reply) :
    Effect.respond rep ∉ cleanup env temps := by
  intro h
  have := List.filter_eq_nil_iff.mp (cleanup_filter_respond env temps) _ h
  simp [isRespond] at this

/-- The `except`-and-`finally` packaging creates no temp file beyond those of
the `try` body. -/
theorem afterTry_createdFiles (env : Env) (u : String) (r : BodyResult) :
    createdFiles (afterTry env u r) = createdFiles r.trace := by
  rcases r with ⟨tr, temps, err⟩
  cases err with
  | none => simp [afterTry, createdFiles_append, cleanup_createdFiles]
  | some e =>
    simp [afterTry, createdFiles_append, cleanup_createdFiles, createdFiles]

/-- The `except`-and-`finally` packaging makes no download attempt beyond
those of the `try` body. -/
theorem afterTry_downloadCount (env : Env) (u : String) (r : BodyResult) :
    downloadCount (afterTry env u r) = downloadCount r.trace := by
  rcases r with ⟨tr, temps, err⟩
  have hcl := cleanup_downloadCount env temps
  simp only [downloadCount] at hcl ⊢
  cases err with
  | none => simp [afterTry, List.countP_append, hcl]
  | some e => simp [afterTry, List.countP_append, List.countP_cons, hcl]

/-- Any photo-listing call after packaging comes from the `try` body. -/
theorem afterTry_listPhotos (env : Env) (u : String) (r : BodyResult) (l : Nat)
    (h : Effect.listPhotos l ∈ afterTry env u r) : Effect.listPhotos l ∈ r.trace := by
  rcases r with ⟨tr, temps, err⟩
  cases err with
  | none =>
    rcases List.mem_append.mp h with h1 | h1
    · exact h1
    · exact absurd h1 (cleanup_no_listPhotos env temps l)
  | some e =>
    simp only [afterTry, List.mem_append, List.mem_cons] at h
    rcases h with h1 | h1 | h1 | h1
    · exact h1
    · exact absurd h1 (by simp)
    · exact absurd h1 (by simp)
    · exact absurd h1 (cleanup_no_listPhotos env temps l)

/-- Every temp file registered by the `try` body receives a removal attempt
in the packaged trace: the `finally` block runs on every exit path. -/
theorem afterTry_mem_removeFile (env : Env) (u : String) (r : BodyResult)
    (p : Nat) (h : p ∈ r.temps) : Effect.removeFile p ∈ afterTry env u r := by
  rcases r with ⟨tr, temps, err⟩
  cases err with
  | none =>
    exact List.mem_append.mpr (Or.inr ((cleanup_mem_removeFile env temps p).mpr h))
  | some e =>
    simp only [afterTry, List.mem_append, List.mem_cons]
    exact Or.inr (Or.inr (Or.inr ((cleanup_mem_removeFile env temps p).mpr h)))

/-- On a real username the handler is the packaged `try` body. -/
theorem username_handler_eq (env : Env) (msg : Message) (u : String)
    (hout : msg.out = false) (hcmd : startsWithSlash msg.text = false)
    (htrim : pyStrip msg.rawText ≠ "")
    (hnu : normalizeHandle (pyStrip msg.rawText) = u) (hune : u ≠ "") :
    username_handler env msg = afterTry env u (tryBody env msg.chatId u) := by
  simp [username_handler, hout, hcmd, htrim, hnu, hune]

/-! The claims. -/

/-- C9: every GET of the liveness route returns status code 200 with a
running-status body and the connectivity boolean equal to the current
`client.is_connected()` value; in particular the boolean is true while the
client is connected. -/
theorem c9_health_endpoint (connected : Bool) :
    (health_check connected).statusCode = 200 ∧
    (health_check connected).telethonConnected = connected ∧
    (health_check true).telethonConnected = true ∧
    (health_check connected).status =
      "Bot is running." ++
        (if connected then " Telethon client is connected to Telegram."
         else " Telethon client is NOT connected to Telegram.") := by
  cases connected <;> exact ⟨rfl, rfl, rfl, rfl⟩

/-- C2, counterexample to the claim as stated: the whitespace-only message
has an empty normalized handle, yet the handler returns silently without the
validation reply (src/main.py lines 101-103 return before normalization). -/
theorem c2_counterexample :
    username_handler envNotFound msgWs = [] ∧
    specNormalizeHandle " " = "" ∧
    normalizeHandle (pyStrip " ") = "" := by decide

/-- C2 as amended: for every non-command, non-self message whose stripped
raw text is non-empty but whose normalized handle is empty, the handler
sends exactly the validation reply and performs no entity resolution. -/
theorem c2_validation_reply (env : Env) (msg : Message)
    (hout : msg.out = false) (hcmd : startsWithSlash msg.text = false)
    (htrim : pyStrip msg.rawText ≠ "")
    (hval : normalizeHandle (pyStrip msg.rawText) = "") :
    username_handler env msg = [Effect.respond Reply.validation] ∧
    ∀ h, Effect.getEntity h ∉ username_handler env msg := by
  have htr : username_handler env msg = [Effect.respond Reply.validation] := by
    simp [username_handler, hout, hcmd, htrim, hval]
  refine ⟨htr, ?_⟩
  intro h
  rw [htr]
  simp

/-- C2, witness for the amended theorem at the single-at-sign message. -/
theorem c2_witness :
    (msgAt.out = false ∧ pyStrip msgAt.rawText ≠ "" ∧
      normalizeHandle (pyStrip msgAt.rawText) = "") ∧
    username_handler envNotFound msgAt = [Effect.respond Reply.validation] :=
  ⟨⟨rfl, by decide, by decide⟩,
    (c2_validation_reply envNotFound msgAt rfl rfl (by decide) (by decide)).1⟩

/-- C3, counterexample to the claim as stated: on input with an interior
at-sign the code's normalization removes it, while the claimed normalization
keeps it; the handler resolves the at-sign-free handle. -/
theorem c3_counterexample :
    normalizeHandle (pyStrip "a@b") = "ab" ∧
    specNormalizeHandle "a@b" = "a@b" ∧
    ("ab" : String) ≠ "a@b" ∧
    username_handler envNotFound msgAab =
      [Effect.getEntity "ab", Effect.logException TgError.usernameNotOccupied,
       Effect.respond (Reply.resolutionFail "ab")] := by decide

/-- C3 as amended: the handle the handler resolves is the raw text stripped,
with every at-sign removed (at any position, not only a single leading one),
then stripped again (src/main.py line 105). -/
theorem c3_normalization (env : Env) (msg : Message) (h : String)
    (hmem : Effect.getEntity h ∈ username_handler env msg) :
    h = pyStrip (replaceAtSign (pyStrip msg.rawText)) := by
  by_cases h1 : (msg.out || startsWithSlash msg.text) = true
  · simp [username_handler, h1] at hmem
  · by_cases h2 : pyStrip msg.rawText = ""
    · simp [username_handler, h1, h2] at hmem
    · by_cases h3 : normalizeHandle (pyStrip msg.rawText) = ""
      · simp [username_handler, h1, h2, h3] at hmem
      · have hmem2 : Effect.getEntity h ∈
            afterTry env (normalizeHandle (pyStrip msg.rawText))
              (tryBody env msg.chatId (normalizeHandle (pyStrip msg.rawText))) := by
          simp only [Bool.or_eq_true, not_or, Bool.not_eq_true] at h1
          rw [username_handler_eq env msg _ h1.1 h1.2 h2 rfl h3] at hmem
          exact hmem
        rcases hb : (tryBody env msg.chatId (normalizeHandle (pyStrip msg.rawText))) with
          ⟨tr, temps, err⟩
        rw [hb] at hmem2
        have htr : Effect.getEntity h ∈ tr → h = normalizeHandle (pyStrip msg.rawText) := by
          intro hx
          have := tryBody_getEntity_handle env msg.chatId
            (normalizeHandle (pyStrip msg.rawText)) h
          rw [hb] at this
          exact this hx
        cases err with
        | none =>
          rcases List.mem_append.mp hmem2 with hx | hx
          · exact htr hx
          · exact absurd hx (cleanup_no_getEntity env temps h)
        | some e =>
          simp only [afterTry, List.mem_append, List.mem_cons] at hmem2
          rcases hmem2 with hx | hx | hx | hx
          · exact htr hx
          · exact absurd hx (by simp)
          · exact absurd hx (by simp)
          · exact absurd hx (cleanup_no_getEntity env temps h)

/-- C3, witness for the amended theorem: the resolved handle of the
counterexample run is the all-at-signs-removed normalization. -/
theorem c3_witness :
    (Effect.getEntity "ab" ∈ username_handler envNotFound msgAab) ∧
    ("ab" : String) = pyStrip (replaceAtSign (pyStrip msgAab.rawText)) :=
  ⟨by decide, c3_normalization envNotFound msgAab "ab" (by decide)⟩

/-- C10: a message whose raw text is empty or whitespace-only is ignored
silently (no reply, no remote call); the validation prompt is sent only when
the stripped text is non-empty yet becomes empty after at-sign removal and
re-stripping. -/
theorem c10_blank_silent (env : Env) (msg : Message)
    (hout : msg.out = false) (hcmd : startsWithSlash msg.text = false) :
    (pyStrip msg.rawText = "" → username_handler env msg = []) ∧
    (Effect.respond Reply.validation ∈ username_handler env msg →
      pyStrip msg.rawText ≠ "" ∧ normalizeHandle (pyStrip msg.rawText) = "") := by
  constructor
  · intro h2
    simp [username_handler, hout, hcmd, h2]
  · intro hmem
    by_cases h2 : pyStrip msg.rawText = ""
    · simp [username_handler, hout, hcmd, h2] at hmem
    · refine ⟨h2, ?_⟩
      by_cases h3 : normalizeHandle (pyStrip msg.rawText) = ""
      · exact h3
      · exfalso
        rw [username_handler_eq env msg _ hout hcmd h2 rfl h3] at hmem
        rcases hb : (tryBody env msg.chatId (normalizeHandle (pyStrip msg.rawText))) with
          ⟨tr, temps, err⟩
        rw [hb] at hmem
        have htr : Effect.respond Reply.validation ∉ tr := by
          have := tryBody_no_validation env msg.chatId
            (normalizeHandle (pyStrip msg.rawText))
          rw [hb] at this
          exact this
        cases err with
        | none =>
          rcases List.mem_append.mp hmem with hx | hx
          · exact htr hx
          · exact cleanup_no_respond env temps Reply.validation hx
        | some e =>
          simp only [afterTry, List.mem_append, List.mem_cons] at hmem
          rcases hmem with hx | hx | hx | hx
          · exact htr hx
          · exact absurd hx (by simp)
          · rw [Effect.respond.injEq] at hx
            exact exceptReply_ne_validation e _ hx.symm
          · exact cleanup_no_respond env temps Reply.validation hx

/-- C10, witness: the single-at-sign message triggers the validation prompt
and indeed has non-blank raw text with an empty normalized handle. -/
theorem c10_witness :
    (msgAt.out = false ∧ startsWithSlash msgAt.text = false) ∧
    (pyStrip msgAt.rawText ≠ "" ∧ normalizeHandle (pyStrip msgAt.rawText) = "") :=
  ⟨⟨rfl, rfl⟩, (c10_blank_silent envNotFound msgAt rfl rfl).2 (by decide)⟩

/-- C6: a handle that resolves but has zero profile photos gets exactly one
reply, that no public profile photos were found, and the handler stops: no
temp file is created and no download or send is attempted (src/main.py
lines 119-121). -/
theorem c6_zero_photos (env : Env) (msg : Message) (u : String) (ent : Nat)
    (hout : msg.out = false) (hcmd : startsWithSlash msg.text = false)
    (htrim : pyStrip msg.rawText ≠ "")
    (hnu : normalizeHandle (pyStrip msg.rawText) = u) (hune : u ≠ "")
    (hent : env.getEntity u = Except.ok ent)
    (hph : env.profilePhotos ent = Except.ok []) :
    username_handler env msg =
      [Effect.getEntity u, Effect.listPhotos 10,
        Effect.respond (Reply.noPhotos u)] ∧
    createdFiles (username_handler env msg) = [] ∧
    downloadCount (username_handler env msg) = 0 := by
  have he := username_handler_eq env msg u hout hcmd htrim hnu hune
  have htb : tryBody env msg.chatId u =
      ⟨[Effect.getEntity u, Effect.listPhotos 10,
        Effect.respond (Reply.noPhotos u)], [], none⟩ := by
    simp [tryBody, hent, hph]
  have htr : username_handler env msg =
      [Effect.getEntity u, Effect.listPhotos 10,
        Effect.respond (Reply.noPhotos u)] := by
    rw [he, htb]
    simp [afterTry, cleanup]
  refine ⟨htr, ?_, ?_⟩
  · rw [htr]; rfl
  · rw [htr]; rfl

/-- C6, witness at a photo-less account. -/
theorem c6_witness :
    (envNoPhotos.getEntity "alice" = Except.ok 1 ∧
      envNoPhotos.profilePhotos 1 = Except.ok []) ∧
    username_handler envNoPhotos msgAlice =
      [Effect.getEntity "alice", Effect.listPhotos 10,
        Effect.respond (Reply.noPhotos "alice")] :=
  ⟨⟨rfl, rfl⟩,
    (c6_zero_photos envNoPhotos msgAlice "alice" 1 rfl rfl (by decide) (by decide)
      (by decide) rfl rfl).1⟩

/-- C8: an unclassified error raised inside the handling cycle is recovered
at the handler boundary (the handler still completes its trace, including
the cleanup), the full error is logged, and the user gets the generic reply
naming only the error's type name (src/main.py lines 163-166). -/
theorem c8_unexpected_error (env : Env) (msg : Message) (u t : String)
    (hout : msg.out = false) (hcmd : startsWithSlash msg.text = false)
    (htrim : pyStrip msg.rawText ≠ "")
    (hnu : normalizeHandle (pyStrip msg.rawText) = u) (hune : u ≠ "")
    (herr : (tryBody env msg.chatId u).err = some (TgError.other t)) :
    username_handler env msg =
      (tryBody env msg.chatId u).trace ++
        Effect.logException (TgError.other t) ::
        Effect.respond (Reply.unexpected t) ::
        cleanup env (tryBody env msg.chatId u).temps ∧
    Effect.respond (Reply.unexpected t) ∈ username_handler env msg := by
  have he := username_handler_eq env msg u hout hcmd htrim hnu hune
  have htr : username_handler env msg =
      (tryBody env msg.chatId u).trace ++
        Effect.logException (TgError.other t) ::
        Effect.respond (Reply.unexpected t) ::
        cleanup env (tryBody env msg.chatId u).temps := by
    rw [he]
    rcases hb : (tryBody env msg.chatId u) with ⟨tr, temps, err⟩
    rw [hb] at herr
    simp only at herr
    subst herr
    simp [afterTry, exceptReply]
  exact ⟨htr, by rw [htr]; simp⟩

/-- C8, witness at an environment whose entity resolution raises an
unclassified `RuntimeError`. -/
theorem c8_witness :
    ((tryBody envBoom msgAlice.chatId "alice").err =
      some (TgError.other "RuntimeError")) ∧
    Effect.respond (Reply.unexpected "RuntimeError") ∈
      username_handler envBoom msgAlice :=
  ⟨by decide,
    (c8_unexpected_error envBoom msgAlice "alice" "RuntimeError" rfl rfl
      (by decide) (by decide) (by decide) (by decide)).2⟩

/-- C7: when the per-photo loop runs over a non-empty photo list and no
exception escapes it, the handler sends exactly one reply in the whole run,
the summary: the count when at least one photo was sent, otherwise that none
could be downloaded or sent (src/main.py lines 147-150). -/
theorem c7_summary_reply (env : Env) (msg : Message) (u : String) (ent : Nat)
    (allPhotos : List Nat) (r : LoopResult)
    (hout : msg.out = false) (hcmd : startsWithSlash msg.text = false)
    (htrim : pyStrip msg.rawText ≠ "")
    (hnu : normalizeHandle (pyStrip msg.rawText) = u) (hune : u ≠ "")
    (hent : env.getEntity u = Except.ok ent)
    (hph : env.profilePhotos ent = Except.ok allPhotos)
    (hne : (allPhotos.take 10).isEmpty = false)
    (hr : photoLoop env msg.chatId u (allPhotos.take 10) 0 0 = r)
    (herr : r.err = none) :
    (username_handler env msg).filter isRespond =
      [Effect.respond (if 0 < r.sent then Reply.sentCount r.sent u
        else Reply.noneSent u)] := by
  have he := username_handler_eq env msg u hout hcmd htrim hnu hune
  have hfil := photoLoop_filter_respond env msg.chatId u (allPhotos.take 10) 0 0
  rw [hr] at hfil
  rcases r with ⟨tr, temps, sent, err⟩
  simp only at herr
  subst herr
  simp only at hfil
  have htb : tryBody env msg.chatId u =
      ⟨Effect.getEntity u :: Effect.listPhotos 10 ::
          (tr ++ [Effect.respond (if 0 < sent then Reply.sentCount sent u
            else Reply.noneSent u)]),
        temps, none⟩ := by
    simp [tryBody, hent, hph, hne, hr, summarize]
  rw [he, htb]
  simp only [afterTry]
  simp [List.filter_append, List.filter_cons, isRespond, hfil,
    cleanup_filter_respond]

/-- C7, witness at a one-photo account where the transfer succeeds. -/
theorem c7_witness :
    (username_handler envAllGood msgAlice).filter isRespond =
      [Effect.respond (Reply.sentCount 1 "alice")] := by
  have h := c7_summary_reply envAllGood msgAlice "alice" 1 [7]
    ⟨[Effect.createTemp 0, Effect.download 7 0,
        Effect.sendFile 3 0 (captionText 1 "alice")], [0], 1, none⟩
    rfl rfl (by decide) (by decide) (by decide) rfl rfl (by decide) rfl rfl
  simpa using h

/-- C5: every photo-listing call requests at most the fixed cap of 10 photos
(src/main.py line 117), and the number of temp-file allocations and of
download attempts never exceeds that cap, whatever the account's photo
count. -/
theorem c5_photo_cap (env : Env) (msg : Message) :
    (∀ l, Effect.listPhotos l ∈ username_handler env msg → l = 10) ∧
    (createdFiles (username_handler env msg)).length ≤ 10 ∧
    downloadCount (username_handler env msg) ≤ 10 := by
  by_cases h1 : (msg.out || startsWithSlash msg.text) = true
  · simp [username_handler, h1, createdFiles, downloadCount]
  · by_cases h2 : pyStrip msg.rawText = ""
    · simp [username_handler, h1, h2, createdFiles, downloadCount]
    · by_cases h3 : normalizeHandle (pyStrip msg.rawText) = ""
      · simp [username_handler, h1, h2, h3, createdFiles, downloadCount]
      · simp only [Bool.or_eq_true, not_or, Bool.not_eq_true] at h1
        rw [username_handler_eq env msg _ h1.1 h1.2 h2 rfl h3]
        refine ⟨?_, ?_, ?_⟩
        · intro l hl
          exact tryBody_listPhotos_limit env msg.chatId _ l
            (afterTry_listPhotos env _ _ l hl)
        · rw [afterTry_createdFiles, tryBody_createdFiles]
          exact tryBody_temps_length_le env msg.chatId _
        · rw [afterTry_downloadCount, tryBody_downloadCount]
          exact tryBody_temps_length_le env msg.chatId _

/-- C5, witness on a concrete run: the listing call requested limit 10, and
the creation count stayed within the cap. -/
theorem c5_witness :
    (10 : Nat) = 10 ∧
    (createdFiles (username_handler envAbort msgAlice)).length ≤ 10 :=
  ⟨(c5_photo_cap envAbort msgAlice).1 10 (by decide),
    (c5_photo_cap envAbort msgAlice).2.1⟩

/-- C4: on every exit path a removal is attempted for every temp file the
run created (the `finally` block of src/main.py lines 167-175), the creation
count equals the download-attempt count, the only files that can remain are
those whose own `os.remove` failed (such a failure is logged, never
re-raised: the handler trace still completes), and when every removal
succeeds zero temp files remain. -/
theorem c4_temp_cleanup (env : Env) (msg : Message) :
    (∀ p, Effect.createTemp p ∈ username_handler env msg →
      Effect.removeFile p ∈ username_handler env msg) ∧
    downloadCount (username_handler env msg) =
      (createdFiles (username_handler env msg)).length ∧
    filesRemaining env (username_handler env msg) =
      (createdFiles (username_handler env msg)).filter (fun p => !env.removeOk p) ∧
    ((∀ p, env.removeOk p = true) →
      filesRemaining env (username_handler env msg) = []) := by
  have main : (∀ p, Effect.createTemp p ∈ username_handler env msg →
        Effect.removeFile p ∈ username_handler env msg) ∧
      downloadCount (username_handler env msg) =
        (createdFiles (username_handler env msg)).length ∧
      filesRemaining env (username_handler env msg) =
        (createdFiles (username_handler env msg)).filter
          (fun p => !env.removeOk p) := by
    by_cases h1 : (msg.out || startsWithSlash msg.text) = true
    · simp [username_handler, h1, createdFiles, downloadCount, filesRemaining]
    · by_cases h2 : pyStrip msg.rawText = ""
      · simp [username_handler, h1, h2, createdFiles, downloadCount,
          filesRemaining]
      · by_cases h3 : normalizeHandle (pyStrip msg.rawText) = ""
        · simp [username_handler, h1, h2, h3, createdFiles, downloadCount,
            filesRemaining]
        · simp only [Bool.or_eq_true, not_or, Bool.not_eq_true] at h1
          rw [username_handler_eq env msg _ h1.1 h1.2 h2 rfl h3]
          have f1 : createdFiles (afterTry env (normalizeHandle (pyStrip msg.rawText))
                (tryBody env msg.chatId (normalizeHandle (pyStrip msg.rawText)))) =
              (tryBody env msg.chatId (normalizeHandle (pyStrip msg.rawText))).temps := by
            rw [afterTry_createdFiles, tryBody_createdFiles]
          have f2 : ∀ p, Effect.createTemp p ∈
                afterTry env (normalizeHandle (pyStrip msg.rawText))
                  (tryBody env msg.chatId (normalizeHandle (pyStrip msg.rawText))) →
              Effect.removeFile p ∈
                afterTry env (normalizeHandle (pyStrip msg.rawText))
                  (tryBody env msg.chatId (normalizeHandle (pyStrip msg.rawText))) := by
            intro p hp
            have hmem : p ∈ createdFiles (afterTry env
                (normalizeHandle (pyStrip msg.rawText))
                (tryBody env msg.chatId (normalizeHandle (pyStrip msg.rawText)))) :=
              (mem_createdFiles _ p).mpr hp
            rw [f1] at hmem
            exact afterTry_mem_removeFile env _ _ p hmem
          refine ⟨f2, ?_, ?_⟩
          · rw [afterTry_downloadCount, tryBody_downloadCount, f1]
          · unfold filesRemaining
            apply List.filter_congr
            intro p hp
            have hrm := f2 p ((mem_createdFiles _ p).mp hp)
            rw [decide_eq_true hrm, Bool.true_and]
  refine ⟨main.1, main.2.1, main.2.2, ?_⟩
  intro hall
  rw [main.2.2]
  apply List.filter_eq_nil_iff.mpr
  intro a ha
  simp [hall a]

/-- C4, witness on a run that created a temp file and hit a download
exception: the removal is attempted and nothing remains on disk. -/
theorem c4_witness :
    Effect.removeFile 0 ∈ username_handler envAbort msgAlice ∧
    (∀ p, envAbort.removeOk p = true) ∧
    filesRemaining envAbort (username_handler envAbort msgAlice) = [] :=
  ⟨(c4_temp_cleanup envAbort msgAlice).1 0 (by decide),
    fun p => rfl,
    (c4_temp_cleanup envAbort msgAlice).2.2.2 (fun p => rfl)⟩

/-- C1, counterexample to the claim as stated: with two photos and a
download call that raises `ConnectionError` on the first, the exception
escapes the per-photo loop to the outer handler, so the second photo is
never attempted (no second temp file, a single download attempt) — the
batch does not continue. -/
theorem c1_counterexample :
    username_handler envAbort msgAlice =
      [Effect.getEntity "alice", Effect.listPhotos 10, Effect.createTemp 0,
        Effect.download 7 0, Effect.logException TgError.connectionError,
        Effect.respond Reply.netErr, Effect.removeFile 0] ∧
    downloadCount (username_handler envAbort msgAlice) = 1 ∧
    Effect.createTemp 1 ∉ username_handler envAbort msgAlice := by decide

/-- C1 as amended: a per-photo download failure signalled by the download
call returning no confirmed path is counted as unsent and the loop continues
through every remaining photo (src/main.py lines 144-145); but an exception
raised by a download call aborts the loop at that photo, leaving the rest
unattempted, and is handled by the outer handler boundary. -/
theorem c1_per_photo_failure :
    (∀ (env : Env) (chat : Nat) (u : String) (photos : List Nat) (i sent : Nat),
      (∀ p q, env.downloadMedia p q = Except.ok none) →
      (photoLoop env chat u photos i sent).err = none ∧
      (photoLoop env chat u photos i sent).sent = sent ∧
      ∀ p ∈ photos, ∃ q,
        Effect.download p q ∈ (photoLoop env chat u photos i sent).trace) ∧
    (∀ (env : Env) (chat : Nat) (u : String) (photo : Nat) (rest : List Nat)
        (i sent : Nat) (e : TgError),
      env.downloadMedia photo i = Except.error e →
      photoLoop env chat u (photo :: rest) i sent =
        ⟨[Effect.createTemp i, Effect.download photo i], [i], sent, some e⟩) := by
  constructor
  · intro env chat u photos
    induction photos with
    | nil => intro i sent hall; simp [photoLoop]
    | cons photo rest ih =>
      intro i sent hall
      have hd := hall photo i
      have ihr := ih (i + 1) sent hall
      refine ⟨?_, ?_, ?_⟩
      · simp [photoLoop, hd, ihr.1]
      · simp [photoLoop, hd, ihr.2.1]
      · intro p hp
        rcases List.mem_cons.mp hp with hp | hp
        · subst hp
          exact ⟨i, by simp [photoLoop, hd]⟩
        · rcases ihr.2.2 p hp with ⟨q, hq⟩
          refine ⟨q, ?_⟩
          simp only [photoLoop, hd, List.mem_cons]
          exact Or.inr (Or.inr (Or.inr hq))
  · intro env chat u photo rest i sent e hd
    simp [photoLoop, hd]

/-- C1, witness for the amended theorem: under downloads that all return no
path, the loop over two photos completes with no escaping error, counts
nothing as sent, and attempted the second photo. -/
theorem c1_witness :
    (∀ p q, envAllNone.downloadMedia p q = Except.ok none) ∧
    (photoLoop envAllNone 3 "alice" [7, 8] 0 0).err = none ∧
    (photoLoop envAllNone 3 "alice" [7, 8] 0 0).sent = 0 :=
  ⟨fun _ _ => rfl,
    (c1_per_photo_failure.1 envAllNone 3 "alice" [7, 8] 0 0 (fun _ _ => rfl)).1,
    (c1_per_photo_failure.1 envAllNone 3 "alice" [7, 8] 0 0 (fun _ _ => rfl)).2.1⟩

end DeepBot
